import Mathlib

/-!
Shallow embedding of `src/main.rs` of the servo-embedding-example repository:
a GTK application embedding the Servo engine.  The embedding models the
input-translation callbacks, the `WindowMethods` implementation on
`ServoWindow`, the `GtkEventLoopWaker`, and the event trace produced by
`main` (startup sequence followed by GUI-loop ticks).

Numeric conventions: `f64`/`f32` toolkit coordinates and scroll deltas are
modelled as `Rat` (the claims under study only involve exact values and the
sign/scale structure of the arithmetic); `i32` values from GTK are modelled
as `Int`, and the `as u32` casts with their wrap-around as `% 2 ^ 32`.
-/

namespace ServoEmbedding

/-- `servo::script_traits::TouchEventType`, the phase attached to a scroll
event (only the constructors used by the source matter here). -/
inductive TouchEventType where
  | Down
  | Up
  | Move
  | Cancel
  deriving DecidableEq, Repr

/-- `gdk::ScrollDirection` of the GTK toolkit. -/
inductive ScrollDirection where
  | Up
  | Down
  | Left
  | Right
  | Smooth
  deriving DecidableEq, Repr

/-- `servo::style_traits::cursor::Cursor`: the engine cursor kinds passed to
`set_cursor` (the source only distinguishes `Pointer` from everything else). -/
inductive Cursor where
  | None
  | Default
  | Pointer
  | ContextMenu
  | Help
  | Progress
  | Wait
  | Cell
  | Crosshair
  | Text
  | VerticalText
  | Alias
  | Copy
  | Move
  | NoDrop
  | NotAllowed
  | Grab
  | Grabbing
  | EResize
  | NResize
  | SResize
  | WResize
  | EwResize
  | NsResize
  | ColResize
  | RowResize
  | AllScroll
  | ZoomIn
  | ZoomOut
  deriving DecidableEq, Repr

/-- `servo::BrowserId`, the opaque view identifier. -/
abbrev BrowserId := Nat

/-- `servo::compositing::windowing::WindowEvent`, restricted to the variants
the source constructs.  `NewBrowser` carries the url; the ipc reply channel
is modelled by the `BrowserId` reply threaded through `mainTrace`. -/
inductive WindowEvent where
  | NewBrowser (url : String)
  | SelectBrowser (id : BrowserId)
  | Resize (size : Nat × Nat)
  | MouseWindowMoveEventClass (p : Rat × Rat)
  | Scroll (delta : Rat × Rat) (pointer : Int × Int) (phase : TouchEventType)
  | Reload (id : BrowserId)
  deriving DecidableEq, Repr

/-- The live GTK window state read by the geometry accessors:
`gtk_window.get_size()` (logical size, two `i32`s) and
`gtk_window.get_scale_factor()` (an `i32`). -/
structure NativeWindow where
  width : Int
  height : Int
  scaleFactor : Int
  deriving DecidableEq, Repr

/-- The `as u32` cast applied to an `i32` value. -/
def toU32 (i : Int) : Nat :=
  (i % (2 ^ 32)).toNat

namespace ServoWindow

/-- `ServoWindow::framebuffer_size`: reads the live logical size and scale
factor and multiplies them in `u32` arithmetic. -/
def framebuffer_size (w : NativeWindow) : Nat × Nat :=
  (toU32 w.scaleFactor * toU32 w.width % 2 ^ 32,
   toU32 w.scaleFactor * toU32 w.height % 2 ^ 32)

/-- The GL side effect performed by `prepare_for_composite`. -/
inductive GlAction where
  | MakeCurrent
  deriving DecidableEq, Repr

/-- `ServoWindow::prepare_for_composite`: makes the GL area current and
returns `true`, ignoring both size arguments.  Modelled as the list of GL
actions performed together with the returned boolean. -/
def prepare_for_composite (_width _height : Nat) : List GlAction × Bool :=
  ([GlAction.MakeCurrent], true)

/-- `ServoWindow::allow_navigation`: modelled as the list of replies sent on
the supplied one-shot channel (the source performs `chan.send(true).ok()`). -/
def allow_navigation (_id : BrowserId) (_url : String) : List Bool :=
  [true]

/-- `ServoWindow::set_cursor`: the native cursor name chosen for an engine
cursor kind (the source then looks that name up with
`gdk::Cursor::new_from_name` and installs it on the window). -/
def set_cursor (cursor : Cursor) : String :=
  match cursor with
  | Cursor.Pointer => "pointer"
  | _ => "default"

end ServoWindow

/-- Rust numeric `as` cast from a float to `i32`: truncation toward zero. -/
def truncI (q : Rat) : Int :=
  if 0 ≤ q then q.floor else q.ceil

/-- The direction-to-phase match of the scroll callback.  Its `dy` argument
is the already scaled-and-inverted vertical delta (the source computes
`let dy = dy * -38.0;` before the match). -/
def scrollPhase (dir : ScrollDirection) (dy : Rat) : TouchEventType :=
  match dir with
  | ScrollDirection.Down => TouchEventType.Down
  | ScrollDirection.Up => TouchEventType.Up
  | ScrollDirection.Left => TouchEventType.Cancel
  | ScrollDirection.Right => TouchEventType.Cancel
  | ScrollDirection.Smooth =>
      if 0 < dy then TouchEventType.Down else TouchEventType.Up

/-- The scroll callback body: toolkit delta `(dx, dy)`, scroll direction,
and the shared pointer state are translated into a `Scroll` window event. -/
def scrollEvent (dx dy : Rat) (dir : ScrollDirection) (ptr : Rat × Rat) :
    WindowEvent :=
  let dy2 := dy * (-38)
  WindowEvent.Scroll (dx, dy2) (truncI ptr.1, truncI ptr.2)
    (scrollPhase dir dy2)

/-- `gdk::enums::key::R`, the keysym compared against in the key-press
callback (capital R, keysym value 0x52). -/
def keyR : Nat := 82

/-- The trigger of one GUI-thread tick after startup: either a wake-induced
flush (`rx.connect_recv`), or one of the native input callbacks.  The resize
payload is carried to record that the callback ignores it. -/
inductive Tick where
  | wake
  | motion (x y : Rat)
  | resize (payloadW payloadH : Int)
  | scroll (dx dy : Rat) (dir : ScrollDirection)
  | keyPress (keyval : Nat)
  deriving DecidableEq, Repr

/-- One GUI-thread tick: given the captured `browser_id`, the live native
window state, and the shared pointer state, produce the updated pointer
state and the batch of events forwarded to `servo.handle_events`. -/
def tickStep (browserId : BrowserId) (win : NativeWindow) (ptr : Rat × Rat) :
    Tick → (Rat × Rat) × List WindowEvent
  | Tick.wake => (ptr, [])
  | Tick.motion x y => ((x, y), [WindowEvent.MouseWindowMoveEventClass (x, y)])
  | Tick.resize _ _ => (ptr, [WindowEvent.Resize (ServoWindow.framebuffer_size win)])
  | Tick.scroll dx dy dir => (ptr, [scrollEvent dx dy dir ptr])
  | Tick.keyPress k =>
      (ptr, if k = keyR then [WindowEvent.Reload browserId] else [])

/-- A tick together with the live native window state at callback time. -/
structure TickCtx where
  tick : Tick
  win : NativeWindow
  deriving DecidableEq, Repr

/-- The batches forwarded by the GUI loop, threading the shared pointer
state from tick to tick. -/
def loopBatches (browserId : BrowserId) (ptr : Rat × Rat) :
    List TickCtx → List (List WindowEvent)
  | [] => []
  | t :: ts =>
      let s := tickStep browserId t.win ptr t.tick
      s.2 :: loopBatches browserId s.1 ts

/-- The hard-coded initial url of `main`. -/
def initialUrl : String := "https://servo.org"

/-- The full sequence of batches `main` hands to `servo.handle_events`:
first `NewBrowser(initial url)`, then — after synchronously receiving the
`browser_id` reply — `SelectBrowser(browser_id)`, then the GUI-loop ticks
with the shared pointer state initialised to `(0, 0)`. -/
def mainTrace (browserId : BrowserId) (ticks : List TickCtx) :
    List (List WindowEvent) :=
  [WindowEvent.NewBrowser initialUrl]
    :: [WindowEvent.SelectBrowser browserId]
    :: loopBatches browserId (0, 0) ticks

/-- An event is input-derived when it originates in a pointer, scroll or
key-press callback. -/
def isInputDerived : WindowEvent → Bool
  | WindowEvent.MouseWindowMoveEventClass _ => true
  | WindowEvent.Scroll _ _ _ => true
  | WindowEvent.Reload _ => true
  | _ => false

/-- The scroll delta carried by an event, when it is a `Scroll`. -/
def deltaOf : WindowEvent → Option (Rat × Rat)
  | WindowEvent.Scroll d _ _ => some d
  | _ => none

/-- The touch phase carried by an event, when it is a `Scroll`. -/
def phaseOf : WindowEvent → Option TouchEventType
  | WindowEvent.Scroll _ _ ph => some ph
  | _ => none

/-- Modelled from the spec: the `glib_itc` channel behind `GtkEventLoopWaker`
is not part of this repository; per the spec its `WakeSignal` is a
unit-valued, coalescing cross-thread notification — multiple sends before
the receiver drains collapse to at most one pending wake, so the state is a
single pending flag. -/
structure WakeState where
  pending : Bool
  deriving DecidableEq, Repr

/-- Modelled from the spec: `Sender::send` marks the wake signal pending,
regardless of how many sends are already pending. -/
def WakeState.send (_s : WakeState) : WakeState :=
  ⟨true⟩

/-- `GtkEventLoopWaker::wake`: locks the shared sender and sends on the
channel. -/
def GtkEventLoopWaker.wake (s : WakeState) : WakeState :=
  WakeState.send s

/-- `n` consecutive `wake()` calls before the receiver drains. -/
def wakeN : Nat → WakeState → WakeState
  | 0, s => s
  | n + 1, s => wakeN n (GtkEventLoopWaker.wake s)

/-- Modelled from the spec: the receiver drains the pending wake, running
the connected flush callback once per pending signal; the result is the
drained state together with the number of flush ticks executed. -/
def WakeState.drain (s : WakeState) : WakeState × Nat :=
  if s.pending then (⟨false⟩, 1) else (⟨false⟩, 0)

/-! ## Theorems -/

/-- C2: for every scroll callback with toolkit delta `(dx, dy)`, the
translated `Scroll` event carries delta `(dx, dy * -38)` — vertical
component inverted and scaled by 38, horizontal unscaled — and toolkit
delta `(0, 1)` with direction `Down` yields delta `(0, -38)` and phase
`Down`. -/
theorem scroll_delta_scaling (dx dy : Rat) (dir : ScrollDirection)
    (ptr : Rat × Rat) :
    deltaOf (scrollEvent dx dy dir ptr) = some (dx, dy * (-38))
      ∧ scrollEvent 0 1 ScrollDirection.Down ptr
          = WindowEvent.Scroll (0, -38) (truncI ptr.1, truncI ptr.2)
              TouchEventType.Down := by
  refine ⟨rfl, ?_⟩
  simp [scrollEvent, scrollPhase]

/-- C3: direction-to-phase mapping of the scroll callback — discrete `Down`
yields phase `Down`, `Up` yields `Up`, `Left` and `Right` yield the
explicit `Cancel` fallback, and `Smooth` falls back to the sign of the
post-scaling-and-inversion vertical delta: positive yields `Down`,
negative yields `Up`. -/
theorem scroll_phase_mapping (dx dy : Rat) (ptr : Rat × Rat) :
    phaseOf (scrollEvent dx dy ScrollDirection.Down ptr) = some TouchEventType.Down
      ∧ phaseOf (scrollEvent dx dy ScrollDirection.Up ptr) = some TouchEventType.Up
      ∧ phaseOf (scrollEvent dx dy ScrollDirection.Left ptr) = some TouchEventType.Cancel
      ∧ phaseOf (scrollEvent dx dy ScrollDirection.Right ptr) = some TouchEventType.Cancel
      ∧ (0 < dy * (-38) →
          phaseOf (scrollEvent dx dy ScrollDirection.Smooth ptr) = some TouchEventType.Down)
      ∧ (dy * (-38) < 0 →
          phaseOf (scrollEvent dx dy ScrollDirection.Smooth ptr) = some TouchEventType.Up) := by
  refine ⟨rfl, rfl, rfl, rfl, ?_, ?_⟩
  · intro h
    simp [scrollEvent, phaseOf, scrollPhase, h]
    linarith
  · intro h
    have h2 : ¬ 0 < dy * (-38) := not_lt.mpr h.le
    simp [scrollEvent, phaseOf, scrollPhase, h2]
    linarith

/-- Witness for C3: at toolkit delta `dy = -1` the post-scaling delta `38`
is positive, giving phase `Down`; at `dy = 1` it is `-38`, giving `Up`. -/
theorem scroll_phase_mapping_witness :
    phaseOf (scrollEvent 0 (-1) ScrollDirection.Smooth (0, 0)) = some TouchEventType.Down
      ∧ phaseOf (scrollEvent 0 1 ScrollDirection.Smooth (0, 0)) = some TouchEventType.Up :=
  ⟨(scroll_phase_mapping 0 (-1) (0, 0)).2.2.2.2.1 (by norm_num),
   (scroll_phase_mapping 0 1 (0, 0)).2.2.2.2.2 (by norm_num)⟩

/-- C6: `allow_navigation` sends exactly one reply on the supplied one-shot
channel, and that reply is `true`, for every view id and url. -/
theorem allow_navigation_replies_true (id : BrowserId) (url : String) :
    ServoWindow.allow_navigation id url = [true]
      ∧ (ServoWindow.allow_navigation id url).length = 1 :=
  ⟨rfl, rfl⟩

/-- C10: `prepare_for_composite` returns `true` for every width and height,
ignoring both arguments; the failure branch of its boolean result is never
taken. -/
theorem prepare_for_composite_always_true (w h w2 h2 : Nat) :
    (ServoWindow.prepare_for_composite w h).2 = true
      ∧ ServoWindow.prepare_for_composite w h
          = ServoWindow.prepare_for_composite w2 h2 :=
  ⟨rfl, rfl⟩

/-- C8: `set_cursor` maps the `Pointer` kind to the native cursor name
`pointer` and every other kind to the explicit `default` fallback; the
mapping is total — every kind produces one of the two names. -/
theorem set_cursor_mapping (c : Cursor) :
    ServoWindow.set_cursor Cursor.Pointer = "pointer"
      ∧ (c ≠ Cursor.Pointer → ServoWindow.set_cursor c = "default")
      ∧ (ServoWindow.set_cursor c = "pointer"
          ∨ ServoWindow.set_cursor c = "default") := by
  refine ⟨rfl, ?_, ?_⟩
  · intro h
    cases c <;> first | rfl | exact absurd rfl h
  · cases c <;> simp [ServoWindow.set_cursor]

/-- Witness for C8: the unmapped `Wait` kind falls back to `default`. -/
theorem set_cursor_mapping_witness :
    ServoWindow.set_cursor Cursor.Wait = "default" :=
  (set_cursor_mapping Cursor.Wait).2.1 (by decide)

/-- C4: for a live native window with nonnegative logical size `(w, h)` and
scale factor `s`, all within the `u32` range with products in range,
`framebuffer_size` returns exactly `(s * w, s * h)`, and every `Resize`
event forwarded from a resize callback carries exactly that framebuffer
size recomputed at callback time, ignoring the resize payload. -/
theorem framebuffer_size_scales (w h s : Nat)
    (hw : w < 2 ^ 32) (hh : h < 2 ^ 32) (hs : s < 2 ^ 32)
    (hsw : s * w < 2 ^ 32) (hsh : s * h < 2 ^ 32) :
    ServoWindow.framebuffer_size ⟨(w : Int), (h : Int), (s : Int)⟩ = (s * w, s * h)
      ∧ ∀ (browserId : BrowserId) (ptr : Rat × Rat) (a b : Int),
          (tickStep browserId ⟨(w : Int), (h : Int), (s : Int)⟩ ptr (Tick.resize a b)).2
            = [WindowEvent.Resize (s * w, s * h)] := by
  have hu : ∀ n : Nat, n < 2 ^ 32 → toU32 (n : Int) = n := by
    intro n hn
    simp only [toU32]
    rw [Int.emod_eq_of_lt (by positivity) (by exact_mod_cast hn)]
    exact Int.toNat_natCast n
  have hfb : ServoWindow.framebuffer_size ⟨(w : Int), (h : Int), (s : Int)⟩
      = (s * w, s * h) := by
    simp only [ServoWindow.framebuffer_size, hu w hw, hu h hh, hu s hs]
    rw [Nat.mod_eq_of_lt hsw, Nat.mod_eq_of_lt hsh]
  refine ⟨hfb, ?_⟩
  intro browserId ptr a b
  simp [tickStep, hfb]

/-- Witness for C4: logical size 1024×768 at integer scale factor 2 gives
framebuffer size 2048×1536, and a resize callback (with arbitrary payload
640×480) forwards exactly `Resize (2048, 1536)`. -/
theorem framebuffer_size_scales_witness :
    ServoWindow.framebuffer_size ⟨1024, 768, 2⟩ = (2048, 1536)
      ∧ (tickStep 0 ⟨1024, 768, 2⟩ (0, 0) (Tick.resize 640 480)).2
          = [WindowEvent.Resize (2048, 1536)] := by
  have h := framebuffer_size_scales 1024 768 2 (by norm_num) (by norm_num)
    (by norm_num) (by norm_num) (by norm_num)
  exact ⟨by simpa using h.1, by simpa using h.2 0 (0, 0) 640 480⟩

/-- C5: for every key-press callback, the reload key `R` forwards exactly
one `Reload(browser_id)` event carrying the id captured at startup, and
every other key forwards zero events. -/
theorem key_press_reload (browserId : BrowserId) (win : NativeWindow)
    (ptr : Rat × Rat) (k : Nat) :
    (k = keyR →
        (tickStep browserId win ptr (Tick.keyPress k)).2
          = [WindowEvent.Reload browserId])
      ∧ (k ≠ keyR → (tickStep browserId win ptr (Tick.keyPress k)).2 = []) := by
  constructor
  · intro h
    simp [tickStep, h]
  · intro h
    simp [tickStep, h]

/-- Witness for C5: keysym 82 (`R`) forwards `[Reload 7]` for startup id 7,
and keysym 65 (`A`) forwards no event. -/
theorem key_press_reload_witness :
    (tickStep 7 ⟨800, 600, 1⟩ (0, 0) (Tick.keyPress 82)).2 = [WindowEvent.Reload 7]
      ∧ (tickStep 7 ⟨800, 600, 1⟩ (0, 0) (Tick.keyPress 65)).2 = [] :=
  ⟨(key_press_reload 7 ⟨800, 600, 1⟩ (0, 0) 82).1 (by decide),
   (key_press_reload 7 ⟨800, 600, 1⟩ (0, 0) 65).2 (by decide)⟩

/-- C7: every batch forwarded on a GUI-thread tick after startup has size
at most one, and a wake-triggered flush tick forwards exactly the empty
batch. -/
theorem tick_batch_at_most_one (browserId : BrowserId) (ptr : Rat × Rat)
    (ticks : List TickCtx) :
    (∀ b ∈ loopBatches browserId ptr ticks, b.length ≤ 1)
      ∧ ∀ (win : NativeWindow) (p : Rat × Rat),
          (tickStep browserId win p Tick.wake).2 = [] := by
  constructor
  · induction ticks generalizing ptr with
    | nil => intro b hb; simp [loopBatches] at hb
    | cons t ts ih =>
        intro b hb
        simp only [loopBatches, List.mem_cons] at hb
        rcases hb with hb | hb
        · subst hb
          rcases t with ⟨tk, win⟩
          cases tk <;> simp [tickStep]
          split <;> simp
        · exact ih _ b hb
  · intro win p
    rfl

/-- Witness for C7: a concrete two-tick run (a wake flush, then a key press
of `R`) yields batches of sizes 0 and 1. -/
theorem tick_batch_at_most_one_witness :
    [] ∈ loopBatches 7 (0, 0) [⟨Tick.wake, ⟨800, 600, 1⟩⟩, ⟨Tick.keyPress 82, ⟨800, 600, 1⟩⟩]
      ∧ ([] : List WindowEvent).length ≤ 1
      ∧ (tickStep 7 ⟨800, 600, 1⟩ (0, 0) Tick.wake).2 = [] := by
  have h := tick_batch_at_most_one 7 (0, 0)
    [⟨Tick.wake, ⟨800, 600, 1⟩⟩, ⟨Tick.keyPress 82, ⟨800, 600, 1⟩⟩]
  have hm : ([] : List WindowEvent)
      ∈ loopBatches 7 (0, 0) [⟨Tick.wake, ⟨800, 600, 1⟩⟩, ⟨Tick.keyPress 82, ⟨800, 600, 1⟩⟩] := by
    simp [loopBatches, tickStep]
  exact ⟨hm, h.1 [] hm, h.2 ⟨800, 600, 1⟩ (0, 0)⟩

/-- C9: `n ≥ 1` `wake()` calls issued before the receiver drains coalesce
to a single pending wake flag (at most one pending signal, by the state
being one boolean), and the next drain runs exactly one flush tick — in
particular `n` wakes are not required to yield `n` ticks. -/
theorem wake_coalescing (n : Nat) (hn : 1 ≤ n) (s : WakeState) :
    (wakeN n s).pending = true
      ∧ WakeState.drain (wakeN n s) = (⟨false⟩, 1) := by
  have hp : ∀ m : Nat, ∀ t : WakeState, t.pending = true → (wakeN m t).pending = true := by
    intro m
    induction m with
    | zero => intro t ht; exact ht
    | succ k ih => intro t _; exact ih _ rfl
  obtain ⟨k, rfl⟩ : ∃ k, n = k + 1 := ⟨n - 1, by omega⟩
  have h1 : (wakeN (k + 1) s).pending = true := hp k ⟨true⟩ rfl
  exact ⟨h1, by simp [WakeState.drain, h1]⟩

/-- Witness for C9: three wakes from the drained state leave one pending
signal and the drain runs exactly one flush tick. -/
theorem wake_coalescing_witness :
    (wakeN 3 ⟨false⟩).pending = true
      ∧ WakeState.drain (wakeN 3 ⟨false⟩) = (⟨false⟩, 1) :=
  wake_coalescing 3 (by decide) ⟨false⟩

/-- Every `Reload` event produced by a GUI-loop tick carries the
`browser_id` captured at startup: the key-press callback is the only
source of `Reload` and it always uses the captured id. -/
theorem reload_id_in_loopBatches {browserId : BrowserId} {ptr : Rat × Rat}
    {ticks : List TickCtx} {id : BrowserId}
    (h : WindowEvent.Reload id ∈ (loopBatches browserId ptr ticks).flatten) :
    id = browserId := by
  induction ticks generalizing ptr with
  | nil => simp [loopBatches] at h
  | cons t ts ih =>
      rcases t with ⟨tk, win⟩
      simp only [loopBatches, List.flatten_cons, List.mem_append] at h
      rcases h with h | h
      · cases tk with
        | wake => simp [tickStep] at h
        | motion x y => simp [tickStep] at h
        | resize a b => simp [tickStep] at h
        | scroll dx dy dir => simp [tickStep, scrollEvent] at h
        | keyPress k =>
            simp only [tickStep] at h
            split at h
            · simp at h
              exact h
            · simp at h
      · exact ih h

/-- C1: the startup sequence — `NewBrowser(initial url)`, the synchronous
`browser_id` reply, then `SelectBrowser(browser_id)` — precedes every
input-derived event in the trace of events `main` hands to the engine:
the flattened trace starts with exactly those two non-input events, and
every `Reload` anywhere in the trace carries the captured `browser_id`,
never a placeholder id. -/
theorem startup_precedes_input (browserId : BrowserId) (ticks : List TickCtx) :
    ∃ rest,
      (mainTrace browserId ticks).flatten
          = WindowEvent.NewBrowser initialUrl
              :: WindowEvent.SelectBrowser browserId :: rest
        ∧ isInputDerived (WindowEvent.NewBrowser initialUrl) = false
        ∧ isInputDerived (WindowEvent.SelectBrowser browserId) = false
        ∧ ∀ id : BrowserId,
            WindowEvent.Reload id ∈ (mainTrace browserId ticks).flatten →
              id = browserId := by
  refine ⟨(loopBatches browserId (0, 0) ticks).flatten, ?_, rfl, rfl, ?_⟩
  · simp [mainTrace]
  · intro id hid
    simp only [mainTrace, List.flatten_cons, List.singleton_append,
      List.mem_cons] at hid
    rcases hid with h | h | h
    · exact absurd h (by simp)
    · exact absurd h (by simp)
    · exact reload_id_in_loopBatches h

end ServoEmbedding
